import Mathlib

set_option allowUnsafeReducibility true
attribute [semireducible] Rat.add Rat.sub Rat.mul Rat.inv Rat.ofScientific

/-!
Shallow embedding of `barrett_follow_trajectory_as.py`
(barrett_trajectory_action_server), the Barrett-hand follow-joint-trajectory
action server.

Conventions of the embedding:
* numpy float arrays of length 4 become `Vec4` (rationals; the claims are about
  exact arithmetic such as thresholds 0.7 / 2.0 / 0.1 and gains 0.4);
* the variable-length tactile arrays become `List ℚ`;
* `np.allclose(a, b, atol=c)` is modelled exactly, including numpy's default
  relative tolerance `rtol = 1e-5`: every axis must satisfy
  `|a - b| ≤ atol + rtol * |b|`;
* the mutable fields of `JointTracjectoryActionServer` that the tactile
  callbacks touch become `TactileState`;
* the execute callback `_follow_joint_trajectory_cb` becomes a function from
  the goal's waypoint list and a stream of per-tick observations of the shared
  state (current DOF state, activation mask, preempt/shutdown flags, elapsed
  time) to the list of published velocity commands and a terminal outcome.
  Each loop iteration that inspects the shared state consumes one observation;
  running out of observations yields the artificial outcome `outOfTicks`.
* the taxel-index-to-frame-name dictionaries live in a `tactile_maps` module
  that is not part of this repository's sources, so the tactile processing
  functions are parametrised over those maps (`f1map f2map f3map : ℕ → String`).
-/

/-- Length-4 vector of rationals, modelling the 4-element numpy arrays. -/
structure Vec4 where
  a0 : ℚ
  a1 : ℚ
  a2 : ℚ
  a3 : ℚ
deriving DecidableEq, Repr

/-- Indexing, modelling `v[i]` on a 4-element numpy array. -/
def Vec4.get (v : Vec4) (i : Fin 4) : ℚ :=
  match i.val with
  | 0 => v.a0
  | 1 => v.a1
  | 2 => v.a2
  | _ => v.a3

/-- In-place update `v[i] = x` on a 4-element numpy array. -/
def Vec4.set (v : Vec4) (i : Fin 4) (x : ℚ) : Vec4 :=
  match i.val with
  | 0 => { v with a0 := x }
  | 1 => { v with a1 := x }
  | 2 => { v with a2 := x }
  | _ => { v with a3 := x }

/-- Elementwise combination of two 4-vectors (numpy broadcasting on equal shapes). -/
def map2 (f : ℚ → ℚ → ℚ) (u v : Vec4) : Vec4 :=
  ⟨f u.a0 v.a0, f u.a1 v.a1, f u.a2 v.a2, f u.a3 v.a3⟩

/-- Elementwise subtraction `u - v`. -/
def sub4 (u v : Vec4) : Vec4 := map2 (fun a b => a - b) u v

/-- Elementwise product `u * v`. -/
def mul4 (u v : Vec4) : Vec4 := map2 (fun a b => a * b) u v

/-- Scalar times vector `c * v` (elementwise). -/
def scale4 (c : ℚ) (v : Vec4) : Vec4 := ⟨c * v.a0, c * v.a1, c * v.a2, c * v.a3⟩

/-- `np.clip` on one scalar: values below `lo` become `lo`, above `hi` become `hi`. -/
def clip1 (x lo hi : ℚ) : ℚ := min hi (max lo x)

/-- `np.clip(v, lo, hi)` elementwise on a 4-vector. -/
def clip4 (v : Vec4) (lo hi : ℚ) : Vec4 :=
  ⟨clip1 v.a0 lo hi, clip1 v.a1 lo hi, clip1 v.a2 lo hi, clip1 v.a3 lo hi⟩

/-- `np.zeros(4)`. -/
def zero4 : Vec4 := ⟨0, 0, 0, 0⟩

/-- `np.ones(4)`. -/
def ones4 : Vec4 := ⟨1, 1, 1, 1⟩

/-- numpy's default relative tolerance for `np.allclose`. -/
def RTOL : ℚ := 1 / 100000

/-- One axis of `np.allclose`: `|a - b| <= atol + rtol * |b|`. -/
def isclose (a b atol : ℚ) : Bool := decide (|a - b| ≤ atol + RTOL * |b|)

/-- `np.allclose(a, b, atol := atol)` on 4-vectors (with numpy's default rtol). -/
def allclose4 (a b : Vec4) (atol : ℚ) : Bool :=
  isclose a.a0 b.a0 atol && isclose a.a1 b.a1 atol &&
  isclose a.a2 b.a2 atol && isclose a.a3 b.a3 atol

/-- Named tuple `DOF = (spread, f1, f2, f3)` representing the dof state of the hand. -/
structure DOF_STATE where
  spread : ℚ
  f1 : ℚ
  f2 : ℚ
  f3 : ℚ
deriving DecidableEq, Repr

/-- Index for the spread dof in the hand (np) ordering. -/
def SPREAD_DOF_INDEX : Fin 4 := 0
/-- Index for finger 1 in the hand (np) ordering. -/
def F1_DOF_INDEX : Fin 4 := 2
/-- Index for finger 2 in the hand (np) ordering. -/
def F2_DOF_INDEX : Fin 4 := 3
/-- Index for finger 3 in the hand (np) ordering. -/
def F3_DOF_INDEX : Fin 4 := 1

/-- Index for the spread dof in MoveIt waypoint ordering. -/
def SPREAD_WAYPOINT_INDEX : Fin 4 := 0
/-- Index for finger 1 in MoveIt waypoint ordering. -/
def F1_WAYPOINT_INDEX : Fin 4 := 1
/-- Index for finger 2 in MoveIt waypoint ordering. -/
def F2_WAYPOINT_INDEX : Fin 4 := 2
/-- Index for finger 3 in MoveIt waypoint ordering. -/
def F3_WAYPOINT_INDEX : Fin 4 := 3

/-- One trajectory point: 4 target positions in planner (MoveIt) ordering plus
its `time_from_start` (seconds, relative to the start of the trajectory). -/
structure Waypoint where
  positions : Vec4
  time_from_start : ℚ
deriving DecidableEq, Repr

/-- `waypoint_to_np`: planner-ordered waypoint positions to hand (np) ordering
`[spread, f3, f1, f2]`. -/
def waypoint_to_np (wp : Waypoint) : Vec4 :=
  ⟨wp.positions.get SPREAD_WAYPOINT_INDEX,
   wp.positions.get F3_WAYPOINT_INDEX,
   wp.positions.get F1_WAYPOINT_INDEX,
   wp.positions.get F2_WAYPOINT_INDEX⟩

/-- `dof_state_to_np`: DOF named tuple to the np ordering `[spread, f3, f1, f2]`. -/
def dof_state_to_np (d : DOF_STATE) : Vec4 := ⟨d.spread, d.f3, d.f1, d.f2⟩

/-- `dof_state_from_np`: np-ordered vector back to the DOF named tuple. -/
def dof_state_from_np (v : Vec4) : DOF_STATE :=
  { spread := v.get SPREAD_DOF_INDEX,
    f1 := v.get F1_DOF_INDEX,
    f2 := v.get F2_DOF_INDEX,
    f3 := v.get F3_DOF_INDEX }

/-- A raw `TactileArray` message: per-taxel readings for the three fingers and
the palm (variable length; 24 entries on real hardware, empty right after
start-up). -/
structure TactileArray where
  finger1 : List ℚ
  finger2 : List ℚ
  finger3 : List ℚ
  palm : List ℚ
deriving DecidableEq, Repr

/-- The mutable fields of `JointTracjectoryActionServer` that the tactile
callback, the reset service and the set-ignore service touch. -/
structure TactileState where
  ignore_tactile_state : Bool
  f1_offsets : List ℚ
  f2_offsets : List ℚ
  f3_offsets : List ℚ
  palm_offsets : List ℚ
  tact_data : TactileArray
  activated_dofs : Vec4
  tactile_info : Finset String
deriving DecidableEq

/-- `TACTILE_THRESHOLD = 0.7`. -/
def TACTILE_THRESHOLD : ℚ := 7 / 10

/-- `EXECUTION_WAYPOINT_THRESHOLD = 2.0`. -/
def EXECUTION_WAYPOINT_THRESHOLD : ℚ := 2

/-- `START_POINT_THRESHOLD = 0.1`. -/
def START_POINT_THRESHOLD : ℚ := 1 / 10

/-- `np.where((arr - offs) > thr)[0]`: the increasing list of indices whose
baseline-subtracted reading strictly exceeds `thr`.  numpy requires the two
arrays to have the same length; the embedding truncates to the shorter one,
and the theorems that rely on this function carry equal-length hypotheses. -/
def exceeding (arr offs : List ℚ) (thr : ℚ) : List ℕ :=
  (List.range (min arr.length offs.length)).filter
    (fun i => decide (thr < arr.getD i 0 - offs.getD i 0))

/-- `_receive_tact_data(self, msg)`.  Parametrised over the three
taxel-index-to-frame-name maps imported from the external `tactile_maps`
module (not part of this repository's sources). -/
def receive_tact_data (f1map f2map f3map : ℕ → String)
    (s : TactileState) (msg : TactileArray) : TactileState :=
  if s.ignore_tactile_state then s
  else
    -- `self._tact_data = msg` happens before the empty-message early return
    let s1 := { s with tact_data := msg }
    -- "First several receive messages are useless"
    if msg.finger1.length = 0 then s1
    else
      let finger1_nonzero := exceeding msg.finger1 s1.f1_offsets TACTILE_THRESHOLD
      let finger2_nonzero := exceeding msg.finger2 s1.f2_offsets TACTILE_THRESHOLD
      let finger3_nonzero := exceeding msg.finger3 s1.f3_offsets TACTILE_THRESHOLD
      let info := ((s1.tactile_info ∪ (finger1_nonzero.map f1map).toFinset)
          ∪ (finger2_nonzero.map f2map).toFinset)
          ∪ (finger3_nonzero.map f3map).toFinset
      let m1 := if 0 < finger1_nonzero.length
        then s1.activated_dofs.set F1_DOF_INDEX 0 else s1.activated_dofs
      let m2 := if 0 < finger2_nonzero.length then m1.set F2_DOF_INDEX 0 else m1
      let m3 := if 0 < finger3_nonzero.length then m2.set F3_DOF_INDEX 0 else m2
      { s1 with tactile_info := info, activated_dofs := m3 }

/-- `reset_tactile_state(self, req)`: re-enable all dofs, clear the contact
frame set, and re-zero the baselines from the stored raw snapshot. -/
def reset_tactile_state (s : TactileState) : TactileState :=
  { s with
    activated_dofs := ones4,
    tactile_info := ∅,
    f1_offsets := s.tact_data.finger1,
    f2_offsets := s.tact_data.finger2,
    f3_offsets := s.tact_data.finger3,
    palm_offsets := s.tact_data.palm }

/-- `set_ignore_tactile_state(self, ignore_flag)`. -/
def set_ignore_tactile_state (flag : Bool) (s : TactileState) : TactileState :=
  { s with ignore_tactile_state := flag }

/-- The tactile-related fields as initialised in `__init__`: offsets
`np.zeros(24)`, an empty `TactileArray()`, `ignore_tactile_state = True`,
`activated_dofs = np.ones(4)`, empty contact frame set. -/
def initial_tactile_state : TactileState :=
  { ignore_tactile_state := true,
    f1_offsets := List.replicate 24 0,
    f2_offsets := List.replicate 24 0,
    f3_offsets := List.replicate 24 0,
    palm_offsets := List.replicate 24 0,
    tact_data := ⟨[], [], [], []⟩,
    activated_dofs := ones4,
    tactile_info := ∅ }

/-- One observation of the shared mutable state, as seen by one iteration of
the execute callback: the latest `self.current_dof`, the latest
`self.activated_dofs`, the preempt / shutdown flags, and the elapsed time
`rospy.Time.now() - start_time`. -/
structure Tick where
  dof : DOF_STATE
  mask : Vec4
  preempt_requested : Bool
  is_shutdown : Bool
  elapsed : ℚ
deriving DecidableEq, Repr

/-- One `sensor_msgs.msg.JointState` command published on `/bhand_node/command`. -/
structure JointCmd where
  position : Vec4
  velocity : Vec4
  effort : Vec4
deriving DecidableEq, Repr

/-- Terminal outcome of one call of the execute callback.
`crashed` models the uncaught `IndexError` on an empty trajectory;
`rejected` models returning from the start-point check without calling any of
`set_aborted` / `set_preempted` / `set_succeeded`; `outOfTicks` is the
artificial outcome when the observation stream is exhausted. -/
inductive Outcome where
  | crashed
  | rejected
  | aborted
  | preempted
  | succeeded
  | outOfTicks
deriving DecidableEq, Repr

/-- How the inner per-waypoint while loop ended. -/
inductive InnerExit where
  | timeUp
  | toleranceMet
  | preempted
  | outOfTicks
deriving DecidableEq, Repr

/-- The proportional gain `gain = np.array([0.4, 0.4, 0.4, 0.4])` (one scalar
since all four entries coincide). -/
def GAIN : ℚ := 2 / 5

/-- The velocity published at a tick while tracking the waypoint `wpNp`
(hand ordering): `np.clip(-gain * (current - target), -0.4, 0.4)` then
multiplied elementwise by the activation mask. -/
def velocityAt (wpNp : Vec4) (t : Tick) : Vec4 :=
  mul4 (clip4 (scale4 (-GAIN) (sub4 (dof_state_to_np t.dof) wpNp)) (-GAIN) GAIN) t.mask

/-- The `cmd_msg` built at the top of a waypoint iteration (lines 298-309):
positions and efforts zero, velocity clipped to ±0.1 and not masked.  The
inner loop overwrites `velocity` before every publish, so this initial
velocity is never published. -/
def entry_cmd (wpNp current_dof_np : Vec4) : JointCmd :=
  { position := zero4,
    velocity := clip4 (scale4 (-GAIN) (sub4 current_dof_np wpNp)) (-(1 : ℚ)/10) (1/10),
    effort := zero4 }

/-- The waypoint-completion tolerance: 0.03 for the final waypoint of the
trajectory, 0.15 otherwise. -/
def waypoint_tol (rest : List Waypoint) : ℚ := if rest.isEmpty then 3/100 else 15/100

/-- The inner `while waypoint.time_from_start >= rospy.Time.now() - start_time`
loop of `_follow_joint_trajectory_cb` for one waypoint.  Each iteration
consumes one `Tick` observation.  Returns the published commands, how the
loop ended, and the unconsumed observations. -/
def runInner (wpNp : Vec4) (tfs tol : ℚ) (cmd0 : JointCmd) :
    List Tick → List JointCmd × InnerExit × List Tick
  | [] => ([], InnerExit.outOfTicks, [])
  | t :: ts =>
    if t.elapsed ≤ tfs then
      let err := sub4 (dof_state_to_np t.dof) wpNp
      let vel := mul4 (clip4 (scale4 (-GAIN) err) (-GAIN) GAIN) t.mask
      if allclose4 (mul4 err t.mask) zero4 tol then ([], InnerExit.toleranceMet, ts)
      else if t.preempt_requested || t.is_shutdown then ([], InnerExit.preempted, ts)
      else
        let r := runInner wpNp tfs tol cmd0 ts
        ({ cmd0 with velocity := vel } :: r.1, r.2)
    else ([], InnerExit.timeUp, ts)

/-- The `for i, waypoint in enumerate(goal.trajectory.points)` loop.  One
`Tick` observation is consumed at the top of each waypoint iteration (the
deviation check, lines 283-296), then `runInner` consumes one per inner
iteration.  Exhausting all waypoints yields `succeeded` (`success` is never
set to `False` in the source). -/
def runWaypoints : List Waypoint → List Tick → List JointCmd × Outcome
  | [], _ => ([], Outcome.succeeded)
  | _ :: _, [] => ([], Outcome.outOfTicks)
  | wp :: rest, t :: ts =>
    let wpNp := waypoint_to_np wp
    let current_dof_np := dof_state_to_np t.dof
    if allclose4 (mul4 wpNp t.mask) (mul4 current_dof_np t.mask)
        EXECUTION_WAYPOINT_THRESHOLD then
      let cmd0 := entry_cmd wpNp current_dof_np
      let r := runInner wpNp wp.time_from_start (waypoint_tol rest) cmd0 ts
      match r.2.1 with
      | InnerExit.preempted => (r.1, Outcome.preempted)
      | InnerExit.outOfTicks => (r.1, Outcome.outOfTicks)
      | _ =>
        let r2 := runWaypoints rest r.2.2
        (r.1 ++ r2.1, r2.2)
    else ([], Outcome.aborted)

/-- `_follow_joint_trajectory_cb(self, goal)`: after the blocking mode-set
call, compare the current dof state against the first waypoint with
`np.allclose(..., atol=START_POINT_THRESHOLD)`; on failure return without any
terminal result (`rejected`), otherwise run the waypoint loop.  `t0` is the
observation of the shared state at the start-point check. -/
def follow_joint_trajectory_cb :
    List Waypoint → Tick → List Tick → List JointCmd × Outcome
  | [], _, _ => ([], Outcome.crashed)
  | wp0 :: rest, t0, ticks =>
    if allclose4 (waypoint_to_np wp0) (dof_state_to_np t0.dof)
        START_POINT_THRESHOLD then
      runWaypoints (wp0 :: rest) ticks
    else ([], Outcome.rejected)

/-- Claim C6: the two directions of the coordinate mapper are mutually
inverse: `dof_state_from_np (dof_state_to_np d) = d` for every DOF state, and
`dof_state_to_np (dof_state_from_np v) = v` for every 4-vector. -/
theorem c6_coordinate_mapper_roundtrip :
    (∀ d : DOF_STATE, dof_state_from_np (dof_state_to_np d) = d) ∧
    (∀ v : Vec4, dof_state_to_np (dof_state_from_np v) = v) :=
  ⟨fun _ => rfl, fun _ => rfl⟩

/-- Claim C5: while `ignore_tactile_state` is true (its initial default),
processing any raw tactile input leaves the whole tactile state unchanged:
mask, contact frame set, stored raw snapshot and baselines included. -/
theorem c5_ignore_tactile_noop :
    (∀ (f1map f2map f3map : ℕ → String) (s : TactileState) (msg : TactileArray),
      s.ignore_tactile_state = true →
      receive_tact_data f1map f2map f3map s msg = s) ∧
    initial_tactile_state.ignore_tactile_state = true := by
  constructor
  · intro f1map f2map f3map s msg h
    unfold receive_tact_data
    rw [if_pos h]
  · rfl

/-- Witness for C5: with the default (ignoring) state, an extreme tactile
message changes nothing. -/
theorem c5_witness :
    receive_tact_data (fun _ => "a") (fun _ => "b") (fun _ => "c")
      initial_tactile_state ⟨[99], [99], [99], [99]⟩ = initial_tactile_state :=
  c5_ignore_tactile_noop.1 _ _ _ _ _ rfl

/-- C9 fails on the code: with ignore off, a message with empty finger arrays
is not a complete no-op — `self._tact_data = msg` runs before the
empty-message early return, so the stored raw snapshot changes, and a
subsequent reset captures the (empty) baselines from that message instead of
the previous snapshot. -/
theorem c9_counterexample :
    receive_tact_data (fun _ => "m1") (fun _ => "m2") (fun _ => "m3")
        ⟨false, [0], [0], [0], [0], ⟨[5], [5], [5], [5]⟩, ones4, ∅⟩
        ⟨[], [], [], []⟩ ≠
      ⟨false, [0], [0], [0], [0], ⟨[5], [5], [5], [5]⟩, ones4, ∅⟩ ∧
    (reset_tactile_state (receive_tact_data (fun _ => "m1") (fun _ => "m2") (fun _ => "m3")
        ⟨false, [0], [0], [0], [0], ⟨[5], [5], [5], [5]⟩, ones4, ∅⟩
        ⟨[], [], [], []⟩)).f1_offsets ≠
      (reset_tactile_state
        ⟨false, [0], [0], [0], [0], ⟨[5], [5], [5], [5]⟩, ones4, ∅⟩).f1_offsets := by
  constructor <;> decide

/-- Claim C9 (amended): when ignore is off, a message whose `finger1` array is
empty (the code tests only `finger1`) leaves the mask, the contact frame set
and the baselines unchanged, but does replace the stored raw snapshot with the
message; consequently a later reset captures baselines from that message. -/
theorem c9_amended_empty_message :
    ∀ (f1map f2map f3map : ℕ → String) (s : TactileState) (msg : TactileArray),
      s.ignore_tactile_state = false →
      msg.finger1.length = 0 →
      receive_tact_data f1map f2map f3map s msg = { s with tact_data := msg } := by
  intro f1map f2map f3map s msg h1 h2
  unfold receive_tact_data
  rw [if_neg (by simp [h1]), if_pos h2]

/-- Witness for the amended C9. -/
theorem c9_witness :
    receive_tact_data (fun _ => "m1") (fun _ => "m2") (fun _ => "m3")
        ⟨false, [0], [0], [0], [0], ⟨[5], [5], [5], [5]⟩, ones4, ∅⟩
        ⟨[], [], [], []⟩ =
      ⟨false, [0], [0], [0], [0], ⟨[], [], [], []⟩, ones4, ∅⟩ :=
  c9_amended_empty_message _ _ _ _ _ rfl rfl

/-- Tactile processing either leaves a mask entry unchanged or clears it to 0;
it never writes any other value (in particular it never re-enables a dof). -/
lemma receive_mask_get_cases (f1map f2map f3map : ℕ → String)
    (s : TactileState) (msg : TactileArray) (i : Fin 4) :
    (receive_tact_data f1map f2map f3map s msg).activated_dofs.get i
      = s.activated_dofs.get i ∨
    (receive_tact_data f1map f2map f3map s msg).activated_dofs.get i = 0 := by
  unfold receive_tact_data
  split
  · exact Or.inl rfl
  split
  · exact Or.inl rfl
  dsimp only
  split_ifs <;> fin_cases i <;>
    simp [Vec4.get, Vec4.set, F1_DOF_INDEX, F2_DOF_INDEX, F3_DOF_INDEX]

/-- Claim C2: the activation mask is monotone under tactile input — a cleared
(0) entry stays cleared through any further tactile message; tactile
processing only ever clears entries (leaves them unchanged or writes 0);
`reset_tactile_state` is the only operation restoring the all-ones mask, and
the set-ignore service never touches the mask. -/
theorem c2_mask_monotonic :
    (∀ (f1map f2map f3map : ℕ → String) (s : TactileState) (msg : TactileArray)
        (i : Fin 4),
      s.activated_dofs.get i = 0 →
      (receive_tact_data f1map f2map f3map s msg).activated_dofs.get i = 0) ∧
    (∀ (f1map f2map f3map : ℕ → String) (s : TactileState) (msg : TactileArray)
        (i : Fin 4),
      (receive_tact_data f1map f2map f3map s msg).activated_dofs.get i
        = s.activated_dofs.get i ∨
      (receive_tact_data f1map f2map f3map s msg).activated_dofs.get i = 0) ∧
    (∀ s : TactileState, (reset_tactile_state s).activated_dofs = ones4) ∧
    (∀ (flag : Bool) (s : TactileState),
      (set_ignore_tactile_state flag s).activated_dofs = s.activated_dofs) := by
  refine ⟨?_, receive_mask_get_cases, fun _ => rfl, fun _ _ => rfl⟩
  intro f1map f2map f3map s msg i h
  rcases receive_mask_get_cases f1map f2map f3map s msg i with hc | hc
  · rw [hc, h]
  · exact hc

/-- Witness for C2: a state whose finger-1 mask entry is already cleared keeps
it cleared through an extreme tactile message. -/
theorem c2_witness :
    (⟨false, [0], [0], [0], [0], ⟨[], [], [], []⟩, ⟨1, 1, 0, 1⟩, ∅⟩ :
        TactileState).activated_dofs.get F1_DOF_INDEX = 0 ∧
    (receive_tact_data (fun _ => "a") (fun _ => "b") (fun _ => "c")
        ⟨false, [0], [0], [0], [0], ⟨[], [], [], []⟩, ⟨1, 1, 0, 1⟩, ∅⟩
        ⟨[100], [100], [100], [100]⟩).activated_dofs.get F1_DOF_INDEX = 0 :=
  ⟨rfl, c2_mask_monotonic.1 _ _ _ _ _ _ rfl⟩

/-- Tactile processing never touches the spread entry of the activation mask:
only the three finger indices (2, 3, 1) are ever written. -/
lemma receive_mask_spread (f1map f2map f3map : ℕ → String)
    (s : TactileState) (msg : TactileArray) :
    (receive_tact_data f1map f2map f3map s msg).activated_dofs.get SPREAD_DOF_INDEX
      = s.activated_dofs.get SPREAD_DOF_INDEX := by
  unfold receive_tact_data
  split
  · rfl
  split
  · rfl
  dsimp only
  split_ifs <;>
    simp [Vec4.get, Vec4.set, SPREAD_DOF_INDEX, F1_DOF_INDEX, F2_DOF_INDEX,
      F3_DOF_INDEX]

/-- Claim C10: the spread dof's mask entry is never cleared by tactile input —
tactile processing preserves it, it starts at 1, reset keeps it at 1, and
while it is 1 the commanded spread velocity is the unmasked clipped
proportional term (never suppressed by the tactile overlay). -/
theorem c10_spread_dof_never_masked :
    (∀ (f1map f2map f3map : ℕ → String) (s : TactileState) (msg : TactileArray),
      (receive_tact_data f1map f2map f3map s msg).activated_dofs.get SPREAD_DOF_INDEX
        = s.activated_dofs.get SPREAD_DOF_INDEX) ∧
    initial_tactile_state.activated_dofs.get SPREAD_DOF_INDEX = 1 ∧
    (∀ s : TactileState,
      (reset_tactile_state s).activated_dofs.get SPREAD_DOF_INDEX = 1) ∧
    (∀ (wpNp : Vec4) (t : Tick), t.mask.get SPREAD_DOF_INDEX = 1 →
      (velocityAt wpNp t).get SPREAD_DOF_INDEX
        = clip1 (-GAIN * (t.dof.spread - wpNp.a0)) (-GAIN) GAIN) := by
  refine ⟨receive_mask_spread, rfl, fun _ => rfl, ?_⟩
  intro wpNp t h
  have h' : t.mask.a0 = 1 := h
  have e : (velocityAt wpNp t).get SPREAD_DOF_INDEX
      = clip1 (-GAIN * (t.dof.spread - wpNp.a0)) (-GAIN) GAIN * t.mask.a0 := rfl
  rw [e, h', mul_one]

/-- Witness for C10: with an all-ones mask the spread axis velocity is the
plain clipped proportional command. -/
theorem c10_witness :
    ((⟨⟨1, 0, 0, 0⟩, ones4, false, false, 0⟩ : Tick).mask.get SPREAD_DOF_INDEX = 1) ∧
    (velocityAt zero4 ⟨⟨1, 0, 0, 0⟩, ones4, false, false, 0⟩).get SPREAD_DOF_INDEX
      = clip1 (-GAIN * ((1 : ℚ) - zero4.a0)) (-GAIN) GAIN :=
  ⟨rfl, c10_spread_dof_never_masked.2.2.2 zero4 _ rfl⟩

/-- Membership in `exceeding`: index in range and baseline-subtracted reading
strictly above the threshold. -/
lemma mem_exceeding {arr offs : List ℚ} {thr : ℚ} {k : ℕ} :
    k ∈ exceeding arr offs thr ↔
      k < min arr.length offs.length ∧ thr < arr.getD k 0 - offs.getD k 0 := by
  simp [exceeding, List.mem_filter, List.mem_range]

/-- If every reading is at most baseline + threshold, no index exceeds. -/
lemma exceeding_eq_nil {arr offs : List ℚ} {thr : ℚ}
    (h : ∀ i, i < min arr.length offs.length →
      arr.getD i 0 ≤ offs.getD i 0 + thr) :
    exceeding arr offs thr = [] := by
  unfold exceeding
  rw [List.filter_eq_nil_iff]
  intro a ha
  rw [List.mem_range] at ha
  simp only [decide_eq_true_eq, not_lt]
  have := h a ha
  linarith

/-- Unfolding of `receive_tact_data` on the non-ignored, non-empty path. -/
lemma receive_tact_data_eq (f1map f2map f3map : ℕ → String)
    (s : TactileState) (msg : TactileArray)
    (h1 : s.ignore_tactile_state = false) (h2 : msg.finger1.length ≠ 0) :
    receive_tact_data f1map f2map f3map s msg =
      { s with
        tact_data := msg,
        tactile_info := ((s.tactile_info
            ∪ ((exceeding msg.finger1 s.f1_offsets TACTILE_THRESHOLD).map f1map).toFinset)
            ∪ ((exceeding msg.finger2 s.f2_offsets TACTILE_THRESHOLD).map f2map).toFinset)
            ∪ ((exceeding msg.finger3 s.f3_offsets TACTILE_THRESHOLD).map f3map).toFinset,
        activated_dofs :=
          (let m1 := if 0 < (exceeding msg.finger1 s.f1_offsets TACTILE_THRESHOLD).length
              then s.activated_dofs.set F1_DOF_INDEX 0 else s.activated_dofs
           let m2 := if 0 < (exceeding msg.finger2 s.f2_offsets TACTILE_THRESHOLD).length
              then m1.set F2_DOF_INDEX 0 else m1
           if 0 < (exceeding msg.finger3 s.f3_offsets TACTILE_THRESHOLD).length
              then m2.set F3_DOF_INDEX 0 else m2) } := by
  unfold receive_tact_data
  rw [if_neg (by simp [h1]), if_neg h2]

/-- Claim C8: contact detection is strict after baseline subtraction — if all
readings of all fingers are at most baseline + 0.7 (in particular, exactly at
the boundary), the mask and the contact frame set are unchanged; while any
taxel reading strictly above baseline + 0.7 on finger j clears finger j's mask
entry and adds its mapped contact frame name to the contact set. -/
theorem c8_contact_threshold_strict :
    (∀ (f1map f2map f3map : ℕ → String) (s : TactileState) (msg : TactileArray),
      s.ignore_tactile_state = false →
      msg.finger1.length ≠ 0 →
      msg.finger1.length = s.f1_offsets.length →
      msg.finger2.length = s.f2_offsets.length →
      msg.finger3.length = s.f3_offsets.length →
      (∀ i, i < msg.finger1.length →
        msg.finger1.getD i 0 ≤ s.f1_offsets.getD i 0 + TACTILE_THRESHOLD) →
      (∀ i, i < msg.finger2.length →
        msg.finger2.getD i 0 ≤ s.f2_offsets.getD i 0 + TACTILE_THRESHOLD) →
      (∀ i, i < msg.finger3.length →
        msg.finger3.getD i 0 ≤ s.f3_offsets.getD i 0 + TACTILE_THRESHOLD) →
      (receive_tact_data f1map f2map f3map s msg).activated_dofs = s.activated_dofs ∧
      (receive_tact_data f1map f2map f3map s msg).tactile_info = s.tactile_info) ∧
    (∀ (f1map f2map f3map : ℕ → String) (s : TactileState) (msg : TactileArray) (k : ℕ),
      s.ignore_tactile_state = false →
      msg.finger1.length ≠ 0 →
      k < min msg.finger1.length s.f1_offsets.length →
      s.f1_offsets.getD k 0 + TACTILE_THRESHOLD < msg.finger1.getD k 0 →
      (receive_tact_data f1map f2map f3map s msg).activated_dofs.get F1_DOF_INDEX = 0 ∧
      f1map k ∈ (receive_tact_data f1map f2map f3map s msg).tactile_info) ∧
    (∀ (f1map f2map f3map : ℕ → String) (s : TactileState) (msg : TactileArray) (k : ℕ),
      s.ignore_tactile_state = false →
      msg.finger1.length ≠ 0 →
      k < min msg.finger2.length s.f2_offsets.length →
      s.f2_offsets.getD k 0 + TACTILE_THRESHOLD < msg.finger2.getD k 0 →
      (receive_tact_data f1map f2map f3map s msg).activated_dofs.get F2_DOF_INDEX = 0 ∧
      f2map k ∈ (receive_tact_data f1map f2map f3map s msg).tactile_info) ∧
    (∀ (f1map f2map f3map : ℕ → String) (s : TactileState) (msg : TactileArray) (k : ℕ),
      s.ignore_tactile_state = false →
      msg.finger1.length ≠ 0 →
      k < min msg.finger3.length s.f3_offsets.length →
      s.f3_offsets.getD k 0 + TACTILE_THRESHOLD < msg.finger3.getD k 0 →
      (receive_tact_data f1map f2map f3map s msg).activated_dofs.get F3_DOF_INDEX = 0 ∧
      f3map k ∈ (receive_tact_data f1map f2map f3map s msg).tactile_info) := by
  refine ⟨?_, ?_, ?_, ?_⟩
  · intro f1map f2map f3map s msg h1 h2 hl1 hl2 hl3 hb1 hb2 hb3
    have e1 : exceeding msg.finger1 s.f1_offsets TACTILE_THRESHOLD = [] :=
      exceeding_eq_nil (fun i hi => hb1 i (lt_of_lt_of_le hi (Nat.min_le_left _ _)))
    have e2 : exceeding msg.finger2 s.f2_offsets TACTILE_THRESHOLD = [] :=
      exceeding_eq_nil (fun i hi => hb2 i (lt_of_lt_of_le hi (Nat.min_le_left _ _)))
    have e3 : exceeding msg.finger3 s.f3_offsets TACTILE_THRESHOLD = [] :=
      exceeding_eq_nil (fun i hi => hb3 i (lt_of_lt_of_le hi (Nat.min_le_left _ _)))
    rw [receive_tact_data_eq f1map f2map f3map s msg h1 h2]
    constructor
    · dsimp only
      rw [e1, e2, e3]
      simp
    · dsimp only
      rw [e1, e2, e3]
      simp
  · intro f1map f2map f3map s msg k h1 h2 hk hthr
    have hkmem : k ∈ exceeding msg.finger1 s.f1_offsets TACTILE_THRESHOLD :=
      mem_exceeding.mpr ⟨hk, by linarith⟩
    have hpos : 0 < (exceeding msg.finger1 s.f1_offsets TACTILE_THRESHOLD).length :=
      List.length_pos.mpr (List.ne_nil_of_mem hkmem)
    rw [receive_tact_data_eq f1map f2map f3map s msg h1 h2]
    constructor
    · dsimp only
      rw [if_pos hpos]
      split_ifs <;> rfl
    · dsimp only
      have hm : f1map k ∈
          ((exceeding msg.finger1 s.f1_offsets TACTILE_THRESHOLD).map f1map).toFinset := by
        rw [List.mem_toFinset]
        exact List.mem_map_of_mem f1map hkmem
      simp [Finset.mem_union, hm]
  · intro f1map f2map f3map s msg k h1 h2 hk hthr
    have hkmem : k ∈ exceeding msg.finger2 s.f2_offsets TACTILE_THRESHOLD :=
      mem_exceeding.mpr ⟨hk, by linarith⟩
    have hpos : 0 < (exceeding msg.finger2 s.f2_offsets TACTILE_THRESHOLD).length :=
      List.length_pos.mpr (List.ne_nil_of_mem hkmem)
    rw [receive_tact_data_eq f1map f2map f3map s msg h1 h2]
    constructor
    · dsimp only
      rw [if_pos hpos]
      split_ifs <;> rfl
    · dsimp only
      have hm : f2map k ∈
          ((exceeding msg.finger2 s.f2_offsets TACTILE_THRESHOLD).map f2map).toFinset := by
        rw [List.mem_toFinset]
        exact List.mem_map_of_mem f2map hkmem
      simp [Finset.mem_union, hm]
  · intro f1map f2map f3map s msg k h1 h2 hk hthr
    have hkmem : k ∈ exceeding msg.finger3 s.f3_offsets TACTILE_THRESHOLD :=
      mem_exceeding.mpr ⟨hk, by linarith⟩
    have hpos : 0 < (exceeding msg.finger3 s.f3_offsets TACTILE_THRESHOLD).length :=
      List.length_pos.mpr (List.ne_nil_of_mem hkmem)
    rw [receive_tact_data_eq f1map f2map f3map s msg h1 h2]
    constructor
    · dsimp only
      rw [if_pos hpos]
      split_ifs <;> rfl
    · dsimp only
      have hm : f3map k ∈
          ((exceeding msg.finger3 s.f3_offsets TACTILE_THRESHOLD).map f3map).toFinset := by
        rw [List.mem_toFinset]
        exact List.mem_map_of_mem f3map hkmem
      simp [Finset.mem_union, hm]
/-- Witness for C8: with baselines 1, readings exactly 1.7 change nothing,
while a reading 1.70001 on a finger clears that finger's mask entry and
records its frame name. -/
theorem c8_witness :
    (receive_tact_data (fun _ => "f1") (fun _ => "f2") (fun _ => "f3")
        ⟨false, [1], [1], [1], [], ⟨[], [], [], []⟩, ones4, ∅⟩
        ⟨[17/10], [17/10], [17/10], []⟩).activated_dofs
      = (⟨false, [1], [1], [1], [], ⟨[], [], [], []⟩, ones4, ∅⟩ :
          TactileState).activated_dofs ∧
    (receive_tact_data (fun _ => "f1") (fun _ => "f2") (fun _ => "f3")
        ⟨false, [1], [1], [1], [], ⟨[], [], [], []⟩, ones4, ∅⟩
        ⟨[17/10], [17/10], [17/10], []⟩).tactile_info
      = (⟨false, [1], [1], [1], [], ⟨[], [], [], []⟩, ones4, ∅⟩ :
          TactileState).tactile_info ∧
    (receive_tact_data (fun _ => "f1") (fun _ => "f2") (fun _ => "f3")
        ⟨false, [1], [1], [1], [], ⟨[], [], [], []⟩, ones4, ∅⟩
        ⟨[170001/100000], [17/10], [17/10], []⟩).activated_dofs.get F1_DOF_INDEX = 0 ∧
    "f1" ∈ (receive_tact_data (fun _ => "f1") (fun _ => "f2") (fun _ => "f3")
        ⟨false, [1], [1], [1], [], ⟨[], [], [], []⟩, ones4, ∅⟩
        ⟨[170001/100000], [17/10], [17/10], []⟩).tactile_info ∧
    (receive_tact_data (fun _ => "f1") (fun _ => "f2") (fun _ => "f3")
        ⟨false, [1], [1], [1], [], ⟨[], [], [], []⟩, ones4, ∅⟩
        ⟨[17/10], [170001/100000], [17/10], []⟩).activated_dofs.get F2_DOF_INDEX = 0 ∧
    "f2" ∈ (receive_tact_data (fun _ => "f1") (fun _ => "f2") (fun _ => "f3")
        ⟨false, [1], [1], [1], [], ⟨[], [], [], []⟩, ones4, ∅⟩
        ⟨[17/10], [170001/100000], [17/10], []⟩).tactile_info ∧
    (receive_tact_data (fun _ => "f1") (fun _ => "f2") (fun _ => "f3")
        ⟨false, [1], [1], [1], [], ⟨[], [], [], []⟩, ones4, ∅⟩
        ⟨[17/10], [17/10], [170001/100000], []⟩).activated_dofs.get F3_DOF_INDEX = 0 ∧
    "f3" ∈ (receive_tact_data (fun _ => "f1") (fun _ => "f2") (fun _ => "f3")
        ⟨false, [1], [1], [1], [], ⟨[], [], [], []⟩, ones4, ∅⟩
        ⟨[17/10], [17/10], [170001/100000], []⟩).tactile_info := by
  refine ⟨?_, ?_, ?_, ?_, ?_, ?_, ?_, ?_⟩
  · exact (c8_contact_threshold_strict.1 _ _ _ _ _ rfl (by decide) rfl rfl rfl
      (by decide) (by decide) (by decide)).1
  · exact (c8_contact_threshold_strict.1 _ _ _ _ _ rfl (by decide) rfl rfl rfl
      (by decide) (by decide) (by decide)).2
  · exact (c8_contact_threshold_strict.2.1 _ _ _ _ _ 0 rfl (by decide) (by decide)
      (by decide)).1
  · exact (c8_contact_threshold_strict.2.1 _ _ _ _ _ 0 rfl (by decide) (by decide)
      (by decide)).2
  · exact (c8_contact_threshold_strict.2.2.1 _ _ _ _ _ 0 rfl (by decide) (by decide)
      (by decide)).1
  · exact (c8_contact_threshold_strict.2.2.1 _ _ _ _ _ 0 rfl (by decide) (by decide)
      (by decide)).2
  · exact (c8_contact_threshold_strict.2.2.2 _ _ _ _ _ 0 rfl (by decide) (by decide)
      (by decide)).1
  · exact (c8_contact_threshold_strict.2.2.2 _ _ _ _ _ 0 rfl (by decide) (by decide)
      (by decide)).2

/-- Componentwise characterisation of `allclose4`. -/
lemma allclose4_iff (a b : Vec4) (atol : ℚ) :
    allclose4 a b atol = true ↔
      (|a.a0 - b.a0| ≤ atol + RTOL * |b.a0| ∧ |a.a1 - b.a1| ≤ atol + RTOL * |b.a1| ∧
       |a.a2 - b.a2| ≤ atol + RTOL * |b.a2| ∧ |a.a3 - b.a3| ≤ atol + RTOL * |b.a3|) := by
  simp [allclose4, isclose, Bool.and_eq_true, and_assoc]

/-- Claim C4: cancellation is polled once per inner-loop tick, after the
tolerance check and before the publish and the sleep — at a tick where the
waypoint is not yet reached and preempt or shutdown is observed, the inner
loop returns immediately with no command published at that tick, and the
waypoint loop then terminates with outcome `preempted`, appending no further
commands after the detection. -/
theorem c4_preempt_checked_before_publish :
    (∀ (wpNp : Vec4) (tfs tol : ℚ) (cmd0 : JointCmd) (t : Tick) (ts : List Tick),
      t.elapsed ≤ tfs →
      allclose4 (mul4 (sub4 (dof_state_to_np t.dof) wpNp) t.mask) zero4 tol = false →
      (t.preempt_requested = true ∨ t.is_shutdown = true) →
      runInner wpNp tfs tol cmd0 (t :: ts) = ([], InnerExit.preempted, ts)) ∧
    (∀ (wp : Waypoint) (rest : List Waypoint) (t : Tick) (ts : List Tick),
      allclose4 (mul4 (waypoint_to_np wp) t.mask)
        (mul4 (dof_state_to_np t.dof) t.mask) EXECUTION_WAYPOINT_THRESHOLD = true →
      (runInner (waypoint_to_np wp) wp.time_from_start (waypoint_tol rest)
          (entry_cmd (waypoint_to_np wp) (dof_state_to_np t.dof)) ts).2.1
        = InnerExit.preempted →
      runWaypoints (wp :: rest) (t :: ts)
        = ((runInner (waypoint_to_np wp) wp.time_from_start (waypoint_tol rest)
            (entry_cmd (waypoint_to_np wp) (dof_state_to_np t.dof)) ts).1,
           Outcome.preempted)) := by
  constructor
  · intro wpNp tfs tol cmd0 t ts h1 h2 h3
    unfold runInner
    rw [if_pos h1]
    dsimp only
    rw [h2]
    simp only [Bool.false_eq_true, if_false]
    rcases h3 with h3 | h3 <;> simp [h3]
  · intro wp rest t ts hpass hpre
    unfold runWaypoints
    rw [if_pos hpass]
    dsimp only
    rcases hEq : runInner (waypoint_to_np wp) wp.time_from_start (waypoint_tol rest)
        (entry_cmd (waypoint_to_np wp) (dof_state_to_np t.dof)) ts with ⟨cs, e, ts2⟩
    rw [hEq] at hpre
    dsimp only at hpre
    subst hpre
    rfl

/-- Witness for C4: a preempt observed one tick into a single-waypoint goal
stops the executor with no published commands. -/
theorem c4_witness :
    runInner (waypoint_to_np ⟨⟨0, 0, 0, 0⟩, 1⟩) 1 (waypoint_tol [])
        (entry_cmd (waypoint_to_np ⟨⟨0, 0, 0, 0⟩, 1⟩) (dof_state_to_np ⟨0, 0, 0, 0⟩))
        [⟨⟨0, 1/5, 0, 0⟩, ones4, true, false, 1/10⟩]
      = ([], InnerExit.preempted, []) ∧
    runWaypoints [⟨⟨0, 0, 0, 0⟩, 1⟩]
        [⟨⟨0, 0, 0, 0⟩, ones4, false, false, 0⟩,
         ⟨⟨0, 1/5, 0, 0⟩, ones4, true, false, 1/10⟩]
      = ([], Outcome.preempted) := by
  constructor
  · exact c4_preempt_checked_before_publish.1 _ 1 _ _ _ _ (by decide) (by decide)
      (Or.inl rfl)
  · have h := c4_preempt_checked_before_publish.2 ⟨⟨0, 0, 0, 0⟩, 1⟩ []
      ⟨⟨0, 0, 0, 0⟩, ones4, false, false, 0⟩
      [⟨⟨0, 1/5, 0, 0⟩, ones4, true, false, 1/10⟩] (by decide) (by decide)
    exact h.trans (by decide)

/-- Claim C1 (amended): the masked-deviation check runs once per waypoint, at
waypoint entry — if there the masked error on some axis exceeds the
`np.allclose` bound `2.0 + 1e-5 * |masked current|`, the executor aborts
immediately and publishes no further commands. -/
theorem c1_amended_deviation_checked_at_waypoint_entry :
    ∀ (wp : Waypoint) (rest : List Waypoint) (t : Tick) (ts : List Tick) (i : Fin 4),
      EXECUTION_WAYPOINT_THRESHOLD
          + RTOL * |(mul4 (dof_state_to_np t.dof) t.mask).get i|
        < |(mul4 (waypoint_to_np wp) t.mask).get i
            - (mul4 (dof_state_to_np t.dof) t.mask).get i| →
      runWaypoints (wp :: rest) (t :: ts) = ([], Outcome.aborted) := by
  intro wp rest t ts i h
  have hni : allclose4 (mul4 (waypoint_to_np wp) t.mask)
      (mul4 (dof_state_to_np t.dof) t.mask) EXECUTION_WAYPOINT_THRESHOLD = false := by
    rw [Bool.eq_false_iff]
    intro hc
    rw [allclose4_iff] at hc
    obtain ⟨h0, h1, h2, h3⟩ := hc
    fin_cases i <;> dsimp only [Vec4.get] at h <;> linarith
  unfold runWaypoints
  simp only [hni, Bool.false_eq_true, if_false]

/-- Witness for the amended C1: masked deviation 2.1 at waypoint entry aborts
with no commands. -/
theorem c1_witness :
    ((EXECUTION_WAYPOINT_THRESHOLD
        + RTOL * |(mul4 (dof_state_to_np ⟨0, 21/10, 0, 0⟩) ones4).get F1_DOF_INDEX|
      < |(mul4 (waypoint_to_np ⟨⟨0, 0, 0, 0⟩, 1⟩) ones4).get F1_DOF_INDEX
          - (mul4 (dof_state_to_np ⟨0, 21/10, 0, 0⟩) ones4).get F1_DOF_INDEX|) ∧
    runWaypoints [⟨⟨0, 0, 0, 0⟩, 1⟩]
        [⟨⟨0, 21/10, 0, 0⟩, ones4, false, false, 0⟩] = ([], Outcome.aborted)) := by
  refine ⟨by decide, ?_⟩
  exact c1_amended_deviation_checked_at_waypoint_entry _ [] _ [] F1_DOF_INDEX (by decide)

/-- C1 fails on the code as stated: the deviation check runs only at waypoint
entry, not at every tick.  Here the masked error on the finger-1 axis is 2.1
(> 2.0, mask fully active) at the second consumed tick — inside the waypoint's
inner loop — yet the command computed at that very tick is still published and
the execution ends `succeeded`, never `aborted`. -/
theorem c1_counterexample :
    (2 : ℚ) < |(mul4 (sub4 (dof_state_to_np ⟨0, 21/10, 0, 0⟩)
        (waypoint_to_np ⟨⟨0, 0, 0, 0⟩, 1⟩)) ones4).get F1_DOF_INDEX| ∧
    follow_joint_trajectory_cb [⟨⟨0, 0, 0, 0⟩, 1⟩]
        ⟨⟨0, 0, 0, 0⟩, ones4, false, false, 0⟩
        [⟨⟨0, 0, 0, 0⟩, ones4, false, false, 0⟩,
         ⟨⟨0, 21/10, 0, 0⟩, ones4, false, false, 1/10⟩,
         ⟨⟨0, 21/10, 0, 0⟩, ones4, false, false, 2⟩]
      = ([⟨zero4, ⟨0, 0, -(2 : ℚ)/5, 0⟩, zero4⟩], Outcome.succeeded) := by
  constructor <;> decide

/-- Claim C7 (amended): the start-point check is `np.allclose` with
`atol = 0.1` and numpy's default `rtol = 1e-5` — if on some axis the first
waypoint differs from the current dof state by more than
`0.1 + 1e-5 * |current|`, the goal is rejected before any motion: no command
is published, the waypoint loop is never entered, and no terminal action
result is emitted (outcome `rejected`). -/
theorem c7_amended_start_check_allclose :
    ∀ (wp0 : Waypoint) (rest : List Waypoint) (t0 : Tick) (ticks : List Tick)
      (i : Fin 4),
      START_POINT_THRESHOLD + RTOL * |(dof_state_to_np t0.dof).get i|
        < |(waypoint_to_np wp0).get i - (dof_state_to_np t0.dof).get i| →
      follow_joint_trajectory_cb (wp0 :: rest) t0 ticks = ([], Outcome.rejected) := by
  intro wp0 rest t0 ticks i h
  have hni : allclose4 (waypoint_to_np wp0) (dof_state_to_np t0.dof)
      START_POINT_THRESHOLD = false := by
    rw [Bool.eq_false_iff]
    intro hc
    rw [allclose4_iff] at hc
    obtain ⟨h0, h1, h2, h3⟩ := hc
    fin_cases i <;> dsimp only [Vec4.get] at h <;> linarith
  unfold follow_joint_trajectory_cb
  simp only [hni, Bool.false_eq_true, if_false]

/-- Witness for the amended C7: a spread-axis difference of 1.0 rejects the
goal with no commands and no terminal result. -/
theorem c7_witness :
    ((START_POINT_THRESHOLD
        + RTOL * |(dof_state_to_np ⟨0, 0, 0, 0⟩).get SPREAD_DOF_INDEX|
      < |(waypoint_to_np ⟨⟨1, 0, 0, 0⟩, 1⟩).get SPREAD_DOF_INDEX
          - (dof_state_to_np ⟨0, 0, 0, 0⟩).get SPREAD_DOF_INDEX|) ∧
    follow_joint_trajectory_cb [⟨⟨1, 0, 0, 0⟩, 1⟩]
        ⟨⟨0, 0, 0, 0⟩, ones4, false, false, 0⟩ [] = ([], Outcome.rejected)) := by
  refine ⟨by decide, ?_⟩
  exact c7_amended_start_check_allclose _ [] _ [] SPREAD_DOF_INDEX (by decide)

/-- C7 fails on the code as stated (the tolerance is not purely absolute): on
the spread axis the first waypoint is 0.10004 away from the current value 5 —
strictly more than 0.1 — yet `np.allclose` accepts it because of the relative
term `1e-5 * 5`, the goal is not rejected, a velocity command is published and
the execution succeeds. -/
theorem c7_counterexample :
    (1 : ℚ)/10 < |(waypoint_to_np ⟨⟨127501/25000, 0, 0, 0⟩, 1⟩).get SPREAD_DOF_INDEX
        - (dof_state_to_np ⟨5, 0, 0, 0⟩).get SPREAD_DOF_INDEX| ∧
    follow_joint_trajectory_cb [⟨⟨127501/25000, 0, 0, 0⟩, 1⟩]
        ⟨⟨5, 0, 0, 0⟩, ones4, false, false, 0⟩
        [⟨⟨5, 0, 0, 0⟩, ones4, false, false, 0⟩,
         ⟨⟨5, 0, 0, 0⟩, ones4, false, false, 1/10⟩,
         ⟨⟨5, 0, 0, 0⟩, ones4, false, false, 2⟩]
      = ([⟨zero4, ⟨2501/62500, 0, 0, 0⟩, zero4⟩], Outcome.succeeded) := by
  constructor <;> decide

/-- Every command in the inner loop's trace is the masked clipped proportional
command for the tick at which it was published. -/
lemma runInner_mem (wpNp : Vec4) (tfs tol : ℚ) (cmd0 : JointCmd) :
    ∀ (ts : List Tick) (c : JointCmd), c ∈ (runInner wpNp tfs tol cmd0 ts).1 →
      ∃ t ∈ ts, c = { cmd0 with velocity := velocityAt wpNp t } := by
  intro ts
  induction ts with
  | nil => intro c hc; simp [runInner] at hc
  | cons t ts ih =>
    intro c hc
    unfold runInner at hc
    split at hc
    · dsimp only at hc
      split at hc
      · simp at hc
      · split at hc
        · simp at hc
        · rcases List.mem_cons.mp hc with hc | hc
          · exact ⟨t, List.mem_cons_self t ts, hc⟩
          · obtain ⟨u, hu, hc'⟩ := ih c hc
            exact ⟨u, List.mem_cons_of_mem t hu, hc'⟩
    · simp at hc

/-- The observations left over by the inner loop are a suffix of its input. -/
lemma runInner_rest_suffix (wpNp : Vec4) (tfs tol : ℚ) (cmd0 : JointCmd) :
    ∀ ts : List Tick, (runInner wpNp tfs tol cmd0 ts).2.2 <:+ ts := by
  intro ts
  induction ts with
  | nil => simp [runInner]
  | cons t ts ih =>
    unfold runInner
    split
    · dsimp only
      split
      · exact List.suffix_cons t ts
      · split
        · exact List.suffix_cons t ts
        · exact ih.trans (List.suffix_cons t ts)
    · exact List.suffix_cons t ts

/-- Unfolding of `runWaypoints` on a nonempty waypoint list with at least one
observation. -/
lemma runWaypoints_cons (wp : Waypoint) (rest : List Waypoint)
    (t : Tick) (ts : List Tick) :
    runWaypoints (wp :: rest) (t :: ts) =
      if allclose4 (mul4 (waypoint_to_np wp) t.mask)
          (mul4 (dof_state_to_np t.dof) t.mask) EXECUTION_WAYPOINT_THRESHOLD then
        match (runInner (waypoint_to_np wp) wp.time_from_start (waypoint_tol rest)
            (entry_cmd (waypoint_to_np wp) (dof_state_to_np t.dof)) ts).2.1 with
        | InnerExit.preempted =>
          ((runInner (waypoint_to_np wp) wp.time_from_start (waypoint_tol rest)
              (entry_cmd (waypoint_to_np wp) (dof_state_to_np t.dof)) ts).1,
           Outcome.preempted)
        | InnerExit.outOfTicks =>
          ((runInner (waypoint_to_np wp) wp.time_from_start (waypoint_tol rest)
              (entry_cmd (waypoint_to_np wp) (dof_state_to_np t.dof)) ts).1,
           Outcome.outOfTicks)
        | _ =>
          ((runInner (waypoint_to_np wp) wp.time_from_start (waypoint_tol rest)
              (entry_cmd (waypoint_to_np wp) (dof_state_to_np t.dof)) ts).1 ++
            (runWaypoints rest
              (runInner (waypoint_to_np wp) wp.time_from_start (waypoint_tol rest)
                (entry_cmd (waypoint_to_np wp) (dof_state_to_np t.dof)) ts).2.2).1,
           (runWaypoints rest
              (runInner (waypoint_to_np wp) wp.time_from_start (waypoint_tol rest)
                (entry_cmd (waypoint_to_np wp) (dof_state_to_np t.dof)) ts).2.2).2)
      else ([], Outcome.aborted) := rfl

/-- The waypoint loop's trace decomposes into the first waypoint's inner trace
followed (possibly) by the remaining waypoints' trace. -/
lemma runWaypoints_trace_sub (wp : Waypoint) (rest : List Waypoint)
    (t : Tick) (ts : List Tick) :
    (runWaypoints (wp :: rest) (t :: ts)).1 ⊆
      (runInner (waypoint_to_np wp) wp.time_from_start (waypoint_tol rest)
        (entry_cmd (waypoint_to_np wp) (dof_state_to_np t.dof)) ts).1 ++
      (runWaypoints rest
        (runInner (waypoint_to_np wp) wp.time_from_start (waypoint_tol rest)
          (entry_cmd (waypoint_to_np wp) (dof_state_to_np t.dof)) ts).2.2).1 := by
  rw [runWaypoints_cons]
  split
  · split
    · exact List.subset_append_left _ _
    · exact List.subset_append_left _ _
    · exact fun x hx => hx
  · exact List.nil_subset _

/-- Every command in the waypoint loop's trace is the masked clipped
proportional command of some goal waypoint at some consumed observation, with
position and effort zero. -/
lemma runWaypoints_mem :
    ∀ (points : List Waypoint) (ticks : List Tick) (c : JointCmd),
      c ∈ (runWaypoints points ticks).1 →
      ∃ wp ∈ points, ∃ t ∈ ticks,
        c = { position := zero4, velocity := velocityAt (waypoint_to_np wp) t,
              effort := zero4 } := by
  intro points
  induction points with
  | nil => intro ticks c hc; simp [runWaypoints] at hc
  | cons wp rest ih =>
    intro ticks c hc
    cases ticks with
    | nil => simp [runWaypoints] at hc
    | cons t ts =>
      rcases List.mem_append.mp (runWaypoints_trace_sub wp rest t ts hc) with hc3 | hc3
      · obtain ⟨u, hu, hc'⟩ := runInner_mem _ _ _ _ ts c hc3
        exact ⟨wp, List.mem_cons_self wp rest, u, List.mem_cons_of_mem t hu, hc'⟩
      · obtain ⟨wp', hwp', u, hu, hc'⟩ := ih _ c hc3
        exact ⟨wp', List.mem_cons_of_mem wp hwp', u,
          List.mem_cons_of_mem t ((runInner_rest_suffix _ _ _ _ ts).subset hu), hc'⟩

/-- Unfolding of the execute callback on a nonempty goal. -/
lemma follow_joint_trajectory_cons (wp0 : Waypoint) (rest : List Waypoint)
    (t0 : Tick) (ticks : List Tick) :
    follow_joint_trajectory_cb (wp0 :: rest) t0 ticks =
      if allclose4 (waypoint_to_np wp0) (dof_state_to_np t0.dof) START_POINT_THRESHOLD
      then runWaypoints (wp0 :: rest) ticks
      else ([], Outcome.rejected) := rfl

/-- Claim C3: every velocity command published during execution has zero
position and effort fields, and its velocity equals
`clip(-0.4 * (current - target), ±0.4)` multiplied elementwise by the
activation mask, for some goal waypoint and some consumed observation; and in
the scenario with current position 0 and target 0.5 on the finger-1 axis the
commanded velocity on that axis is 0.2. -/
theorem c3_published_velocity_commands :
    (∀ (points : List Waypoint) (t0 : Tick) (ticks : List Tick) (c : JointCmd),
      c ∈ (follow_joint_trajectory_cb points t0 ticks).1 →
      c.position = zero4 ∧ c.effort = zero4 ∧
      ∃ wp ∈ points, ∃ t ∈ ticks, c.velocity = velocityAt (waypoint_to_np wp) t) ∧
    velocityAt (waypoint_to_np ⟨⟨0, 1/2, 0, 0⟩, 2⟩)
        ⟨⟨0, 0, 0, 0⟩, ones4, false, false, 0⟩ = ⟨0, 0, 1/5, 0⟩ := by
  constructor
  · intro points t0 ticks c hc
    cases points with
    | nil => simp [follow_joint_trajectory_cb] at hc
    | cons wp0 rest =>
      rw [follow_joint_trajectory_cons] at hc
      split at hc
      · obtain ⟨wp, hwp, t, ht, hc'⟩ := runWaypoints_mem (wp0 :: rest) ticks c hc
        subst hc'
        exact ⟨rfl, rfl, wp, hwp, t, ht, rfl⟩
      · simp at hc
  · decide

/-- Witness for C3: the single command published for a one-waypoint goal with
a 0.2 finger-1 error has the claimed shape. -/
theorem c3_witness :
    (⟨zero4, ⟨0, 0, -(2 : ℚ)/25, 0⟩, zero4⟩ : JointCmd).position = zero4 ∧
    (⟨zero4, ⟨0, 0, -(2 : ℚ)/25, 0⟩, zero4⟩ : JointCmd).effort = zero4 ∧
    ∃ wp ∈ [(⟨⟨0, 0, 0, 0⟩, 1⟩ : Waypoint)],
      ∃ t ∈ [(⟨⟨0, 0, 0, 0⟩, ones4, false, false, 0⟩ : Tick),
             ⟨⟨0, 1/5, 0, 0⟩, ones4, false, false, 1/10⟩,
             ⟨⟨0, 1/5, 0, 0⟩, ones4, false, false, 2⟩],
        (⟨zero4, ⟨0, 0, -(2 : ℚ)/25, 0⟩, zero4⟩ : JointCmd).velocity
          = velocityAt (waypoint_to_np wp) t :=
  c3_published_velocity_commands.1 [⟨⟨0, 0, 0, 0⟩, 1⟩]
    ⟨⟨0, 0, 0, 0⟩, ones4, false, false, 0⟩
    [⟨⟨0, 0, 0, 0⟩, ones4, false, false, 0⟩,
     ⟨⟨0, 1/5, 0, 0⟩, ones4, false, false, 1/10⟩,
     ⟨⟨0, 1/5, 0, 0⟩, ones4, false, false, 2⟩]
    ⟨zero4, ⟨0, 0, -(2 : ℚ)/25, 0⟩, zero4⟩ (by decide)
